import Mathlib

/-!
Shallow embedding of the `AdminPanel` React component of the
admin-grow100x repository, in its two variants:

* `V1` — `src/src/app/page.tsx` (first copy): login/register toggle with
  separate `handleLogin` / `handleRegister` handlers and the
  `showLogin` / `showRegister` view flags.
* `V2` — `src/unnamed/part_000` (identical to the second copy bundled in
  `page.tsx`): register-only variant with a single `handleSubmit`
  handler and no view-mode flags.

Each event handler of the component becomes a pure state transformer:
it takes the component state, the outcome the network would produce for
each request it may issue, and returns the new state together with the
trace of HTTP requests it issued (in order).  `localStorage` is an
association list from keys to stored blobs; a stored blob either parses
as a JSON user object (`StorageBlob.valid u`, the result of
`JSON.stringify` on `u`) or makes `JSON.parse` throw
(`StorageBlob.malformed raw`), which is exactly the dichotomy the
component branches on.
-/

/-- The `User` interface of `page.tsx`. -/
structure User where
  id : String
  email : String
  fullName : String
  isVerified : Bool
  role : String
deriving Repr, DecidableEq

/-- One entry of `ReferralData.referralLinks`. -/
structure ReferralLink where
  courseId : String
  courseName : String
  link : String
deriving Repr, DecidableEq

/-- The `ReferralData` interface of `page.tsx`.  The numeric fields are
JS numbers that the component only displays, never computes with, so we
carry them as integers. -/
structure ReferralData where
  referralCode : String
  referralLinks : List ReferralLink
  totalReferredCount : Int
  totalEarnings : Int
  pendingEarnings : Int
deriving Repr, DecidableEq

/-- The `formData` state object `{ email, fullName }`. -/
structure FormData where
  email : String
  fullName : String
deriving Repr, DecidableEq

/-- A blob stored in `localStorage`.  `valid u` is the string
`JSON.stringify(u)` for a user object `u` (it parses back to `u`);
`malformed raw` is any string on which `JSON.parse` throws. -/
inductive StorageBlob where
  | valid (u : User)
  | malformed (raw : String)
deriving Repr, DecidableEq

/-- The browser `localStorage`, restricted to what the component can
observe: a finite map from keys to stored blobs. -/
def LocalStorage := List (String × StorageBlob)

instance : DecidableEq LocalStorage := by
  unfold LocalStorage
  infer_instance

/-- `localStorage.getItem k`. -/
def LocalStorage.getItem (ls : LocalStorage) (k : String) : Option StorageBlob :=
  match ls.find? (fun p => p.1 = k) with
  | some p => some p.2
  | none => none

/-- `localStorage.setItem k v`. -/
def LocalStorage.setItem (ls : LocalStorage) (k : String) (v : StorageBlob) :
    LocalStorage :=
  (k, v) :: (List.filter (fun p => !(p.1 = k : Bool)) ls)

/-- `localStorage.removeItem k`. -/
def LocalStorage.removeItem (ls : LocalStorage) (k : String) : LocalStorage :=
  List.filter (fun p => !(p.1 = k : Bool)) ls

/-- One HTTP request issued by the component, carrying exactly the data
the component puts into it.  The `auth` arguments are the literal value
of the `Authorization` header. -/
inductive Request where
  | loginReq (email : String)
  | registerReq (email : String) (fullName : String)
  | summaryReq (auth : String)
  | codeReq (auth : String)
deriving Repr, DecidableEq

/-- Whether a request is a referral-summary fetch
(`GET /referral/admin/summary`). -/
def Request.isSummary : Request → Bool
  | .summaryReq _ => true
  | _ => false

/-- Number of referral-summary fetches in a request trace. -/
def countSummary (reqs : List Request) : Nat :=
  reqs.countP (fun r => r.isSummary)

/-- Outcome of a `POST /auth/admin/login` or `/auth/admin/register`
request, as observed by the handler: either the promise resolves with a
response body `{success, user}` (the handler reads `user` only under
the `success` guard), or it rejects and the caught error carries
`err.response?.data?.message` — `none` when no server message is
reachable on the error object. -/
inductive AuthOutcome where
  | ok (success : Bool) (user : User)
  | err (serverMessage : Option String)
deriving Repr, DecidableEq

/-- Outcome of a `GET /referral/admin/summary` request: resolved with
`{success, data}` (again `data` is only read under the `success`
guard), or rejected. -/
inductive FetchOutcome where
  | ok (success : Bool) (data : ReferralData)
  | err
deriving Repr, DecidableEq

/-- Outcome of a `GET /referral/admin/code` request: resolved with
`{success}`, or rejected with an optional server message on the error
object (the handler never reads it, but the wire can carry one). -/
inductive GenOutcome where
  | ok (success : Bool)
  | err (serverMessage : Option String)
deriving Repr, DecidableEq

/-- JS `m || fallback` on an optional string message: the fallback is
used when the message is absent or empty (empty strings are falsy). -/
def jsOrElse (m : Option String) (fallback : String) : String :=
  match m with
  | some s => if s = "" then fallback else s
  | none => fallback

namespace V1

/-- The state of the `AdminPanel` component of `page.tsx` (toggle
variant), together with the `localStorage` it reads and writes. -/
structure AppState where
  user : Option User
  referralData : Option ReferralData
  loading : Bool
  error : String
  showLogin : Bool
  showRegister : Bool
  formData : FormData
  localStorage : LocalStorage
deriving DecidableEq

/-- The `useState` initial values of the component, over a given
pre-existing `localStorage`. -/
def initialState (ls : LocalStorage) : AppState :=
  { user := none
    referralData := none
    loading := false
    error := ""
    showLogin := true
    showRegister := false
    formData := { email := "", fullName := "" }
    localStorage := ls }

/-- `fetchReferralData(userId)`: issues the summary request with header
`Bearer <userId>`; on `success` stores `response.data.data`, on a
non-success response does nothing, on rejection only logs
(`console.error`) and changes no state. -/
def fetchReferralData (userId : String) (f : FetchOutcome) (s : AppState) :
    AppState × List Request :=
  let req := Request.summaryReq ("Bearer " ++ userId)
  match f with
  | .ok true d => ({ s with referralData := some d }, [req])
  | .ok false _ => (s, [req])
  | .err => (s, [req])

/-- The synchronous prefix of `handleLogin` / `handleRegister` before
the request is awaited: `setLoading(true); setError('')`. -/
def submitStart (s : AppState) : AppState :=
  { s with loading := true, error := "" }

/-- The rest of `handleLogin` after the login request settles with
outcome `a` (the nested referral fetch, when reached, settles with
outcome `f`), including the `finally` block. -/
def handleLoginFinish (a : AuthOutcome) (f : FetchOutcome) (s : AppState) :
    AppState × List Request :=
  let req := Request.loginReq s.formData.email
  match a with
  | .ok true u =>
      let s1 := { s with
        user := some u
        localStorage := s.localStorage.setItem "adminUser" (.valid u)
        showLogin := false
        showRegister := false }
      let (s2, reqs) := fetchReferralData u.id f s1
      ({ s2 with loading := false }, req :: reqs)
  | .ok false _ => ({ s with loading := false }, [req])
  | .err m =>
      ({ s with error := jsOrElse m "Login failed", loading := false }, [req])

/-- `handleLogin`, end to end: the login request's outcome is `a`, the
referral fetch's outcome (when the fetch happens) is `f`. -/
def handleLogin (a : AuthOutcome) (f : FetchOutcome) (s : AppState) :
    AppState × List Request :=
  handleLoginFinish a f (submitStart s)

/-- The rest of `handleRegister` after the register request settles. -/
def handleRegisterFinish (a : AuthOutcome) (f : FetchOutcome) (s : AppState) :
    AppState × List Request :=
  let req := Request.registerReq s.formData.email s.formData.fullName
  match a with
  | .ok true u =>
      let s1 := { s with
        user := some u
        localStorage := s.localStorage.setItem "adminUser" (.valid u)
        showLogin := false
        showRegister := false }
      let (s2, reqs) := fetchReferralData u.id f s1
      ({ s2 with loading := false }, req :: reqs)
  | .ok false _ => ({ s with loading := false }, [req])
  | .err m =>
      ({ s with error := jsOrElse m "Registration failed", loading := false }, [req])

/-- `handleRegister`, end to end. -/
def handleRegister (a : AuthOutcome) (f : FetchOutcome) (s : AppState) :
    AppState × List Request :=
  handleRegisterFinish a f (submitStart s)

/-- The synchronous prefix of `generateReferralLink`: the `if (!user)
return;` guard, then `setLoading(true)` (no `setError('')` here). -/
def generateStart (s : AppState) : AppState :=
  match s.user with
  | none => s
  | some _ => { s with loading := true }

/-- `generateReferralLink`, end to end: returns immediately when no
user is signed in; otherwise issues the code request with header
`Bearer <user.id>` (outcome `g`), re-fetches the summary on `success`
(outcome `f`), sets the hard-coded error string on rejection, and
clears the loading flag in `finally`. -/
def generateReferralLink (g : GenOutcome) (f : FetchOutcome) (s : AppState) :
    AppState × List Request :=
  match s.user with
  | none => (s, [])
  | some u =>
      let s1 := { s with loading := true }
      let req := Request.codeReq ("Bearer " ++ u.id)
      match g with
      | .ok true =>
          let (s2, reqs) := fetchReferralData u.id f s1
          ({ s2 with loading := false }, req :: reqs)
      | .ok false => ({ s1 with loading := false }, [req])
      | .err _ =>
          ({ s1 with error := "Failed to generate referral link", loading := false },
           [req])

/-- `handleLogout`: clears user, referral data, the form fields,
resets the view flags to the login form, and removes the persisted
entry. -/
def handleLogout (s : AppState) : AppState :=
  { s with
    user := none
    referralData := none
    showLogin := true
    showRegister := false
    formData := { email := "", fullName := "" }
    localStorage := s.localStorage.removeItem "adminUser" }

/-- The session-bootstrap `useEffect` run on mount: reads the
`adminUser` entry; when it parses, installs the user, hides the forms
and fetches referral data (outcome `f`); when `JSON.parse` throws,
removes the entry and nothing else; when absent, does nothing. -/
def sessionBootstrap (f : FetchOutcome) (s : AppState) :
    AppState × List Request :=
  match s.localStorage.getItem "adminUser" with
  | none => (s, [])
  | some (.valid u) =>
      let s1 := { s with user := some u, showLogin := false, showRegister := false }
      fetchReferralData u.id f s1
  | some (.malformed _) =>
      ({ s with localStorage := s.localStorage.removeItem "adminUser" }, [])

/-- The `disabled={loading}` prop of the submit button in the form
view. -/
def submitDisabled (s : AppState) : Bool := s.loading

/-- The `disabled={loading}` prop of the "Generate Referral Link"
button in the dashboard view. -/
def generateDisabled (s : AppState) : Bool := s.loading

end V1

namespace V2

/-- The state of the `AdminPanel` component of `src/unnamed/part_000`
(register-only variant): same as `V1` without the `showLogin` /
`showRegister` flags. -/
structure AppState where
  user : Option User
  referralData : Option ReferralData
  loading : Bool
  error : String
  formData : FormData
  localStorage : LocalStorage
deriving DecidableEq

/-- The `useState` initial values of the component. -/
def initialState (ls : LocalStorage) : AppState :=
  { user := none
    referralData := none
    loading := false
    error := ""
    formData := { email := "", fullName := "" }
    localStorage := ls }

/-- `fetchReferralData(userId)` — textually identical to `V1`. -/
def fetchReferralData (userId : String) (f : FetchOutcome) (s : AppState) :
    AppState × List Request :=
  let req := Request.summaryReq ("Bearer " ++ userId)
  match f with
  | .ok true d => ({ s with referralData := some d }, [req])
  | .ok false _ => (s, [req])
  | .err => (s, [req])

/-- The synchronous prefix of `handleSubmit`:
`setLoading(true); setError('')`. -/
def submitStart (s : AppState) : AppState :=
  { s with loading := true, error := "" }

/-- The rest of `handleSubmit` after the register request settles. -/
def handleSubmitFinish (a : AuthOutcome) (f : FetchOutcome) (s : AppState) :
    AppState × List Request :=
  let req := Request.registerReq s.formData.email s.formData.fullName
  match a with
  | .ok true u =>
      let s1 := { s with
        user := some u
        localStorage := s.localStorage.setItem "adminUser" (.valid u) }
      let (s2, reqs) := fetchReferralData u.id f s1
      ({ s2 with loading := false }, req :: reqs)
  | .ok false _ => ({ s with loading := false }, [req])
  | .err m =>
      ({ s with error := jsOrElse m "Failed to access dashboard", loading := false },
       [req])

/-- `handleSubmit`, end to end. -/
def handleSubmit (a : AuthOutcome) (f : FetchOutcome) (s : AppState) :
    AppState × List Request :=
  handleSubmitFinish a f (submitStart s)

/-- The synchronous prefix of `generateReferralLink`: the `if (!user)
return;` guard, then `setLoading(true)`. -/
def generateStart (s : AppState) : AppState :=
  match s.user with
  | none => s
  | some _ => { s with loading := true }

/-- `generateReferralLink` — textually identical to `V1`. -/
def generateReferralLink (g : GenOutcome) (f : FetchOutcome) (s : AppState) :
    AppState × List Request :=
  match s.user with
  | none => (s, [])
  | some u =>
      let s1 := { s with loading := true }
      let req := Request.codeReq ("Bearer " ++ u.id)
      match g with
      | .ok true =>
          let (s2, reqs) := fetchReferralData u.id f s1
          ({ s2 with loading := false }, req :: reqs)
      | .ok false => ({ s1 with loading := false }, [req])
      | .err _ =>
          ({ s1 with error := "Failed to generate referral link", loading := false },
           [req])

/-- `handleLogout`: clears user, referral data and the form fields and
removes the persisted entry (this variant has no view flags). -/
def handleLogout (s : AppState) : AppState :=
  { s with
    user := none
    referralData := none
    formData := { email := "", fullName := "" }
    localStorage := s.localStorage.removeItem "adminUser" }

/-- The session-bootstrap `useEffect` run on mount. -/
def sessionBootstrap (f : FetchOutcome) (s : AppState) :
    AppState × List Request :=
  match s.localStorage.getItem "adminUser" with
  | none => (s, [])
  | some (.valid u) =>
      let s1 := { s with user := some u }
      fetchReferralData u.id f s1
  | some (.malformed _) =>
      ({ s with localStorage := s.localStorage.removeItem "adminUser" }, [])

/-- The `disabled={loading}` prop of the submit button. -/
def submitDisabled (s : AppState) : Bool := s.loading

/-- The `disabled={loading}` prop of the generate button. -/
def generateDisabled (s : AppState) : Bool := s.loading

end V2

/-- The `Authorization` header value of a request, when it carries
one. -/
def Request.bearerAuth : Request → Option String
  | .summaryReq a => some a
  | .codeReq a => some a
  | .loginReq _ => none
  | .registerReq _ _ => none

/-! ## Sample data -/

/-- A concrete user for witness instantiations. -/
def sampleUser : User :=
  { id := "u-42", email := "jo@example.com", fullName := "Jo Doe",
    isVerified := true, role := "admin" }

/-- A concrete referral summary for witness instantiations. -/
def sampleData : ReferralData :=
  { referralCode := "GROW42", referralLinks := [], totalReferredCount := 3,
    totalEarnings := 100, pendingEarnings := 25 }

/-- Concrete signed-in `V1` state for witness instantiations. -/
def sampleV1State : V1.AppState :=
  { V1.initialState [] with user := some sampleUser }

/-- Concrete signed-in `V2` state for witness instantiations. -/
def sampleV2State : V2.AppState :=
  { V2.initialState [] with user := some sampleUser }

/-- A `V1` state that already displays an error message. -/
def erroredV1State : V1.AppState :=
  { V1.initialState [] with error := "Previous error" }

/-! ## Helper lemmas about the `localStorage` map -/

theorem getItem_setItem (ls : LocalStorage) (k : String) (v : StorageBlob) :
    (ls.setItem k v).getItem k = some v := by
  simp [LocalStorage.getItem, LocalStorage.setItem]

theorem getItem_removeItem (ls : LocalStorage) (k : String) :
    (ls.removeItem k).getItem k = none := by
  unfold LocalStorage.getItem LocalStorage.removeItem
  rw [List.find?_eq_none.mpr]
  intro x hx
  have h := (List.mem_filter.mp hx).2
  simp at h ⊢
  exact h

/-! ## Claims -/

/-- **C1.** For every registration or login submission whose response has
`success = true`, the handler stores the returned user object verbatim in
view state and in local storage under the fixed key `adminUser`
(serialized), and the trace of issued referral-summary fetches is exactly
one fetch authorised for that user's id — in all three handlers
(`V1.handleLogin`, `V1.handleRegister`, `V2.handleSubmit`), for every
starting state and every outcome of the nested fetch. -/
theorem claim1_success_persists_and_fetches_once
    (u : User) (f : FetchOutcome) (s : V1.AppState) (t : V2.AppState) :
    ((V1.handleLogin (.ok true u) f s).1.user = some u ∧
     (V1.handleLogin (.ok true u) f s).1.localStorage.getItem "adminUser"
       = some (.valid u) ∧
     (V1.handleLogin (.ok true u) f s).2.filter (fun q => q.isSummary)
       = [Request.summaryReq ("Bearer " ++ u.id)]) ∧
    ((V1.handleRegister (.ok true u) f s).1.user = some u ∧
     (V1.handleRegister (.ok true u) f s).1.localStorage.getItem "adminUser"
       = some (.valid u) ∧
     (V1.handleRegister (.ok true u) f s).2.filter (fun q => q.isSummary)
       = [Request.summaryReq ("Bearer " ++ u.id)]) ∧
    ((V2.handleSubmit (.ok true u) f t).1.user = some u ∧
     (V2.handleSubmit (.ok true u) f t).1.localStorage.getItem "adminUser"
       = some (.valid u) ∧
     (V2.handleSubmit (.ok true u) f t).2.filter (fun q => q.isSummary)
       = [Request.summaryReq ("Bearer " ++ u.id)]) := by
  cases f with
  | ok success d =>
      cases success <;>
        simp [V1.handleLogin, V1.handleRegister, V2.handleSubmit,
          V1.handleLoginFinish, V1.handleRegisterFinish, V2.handleSubmitFinish,
          V1.submitStart, V2.submitStart, V1.fetchReferralData,
          V2.fetchReferralData, getItem_setItem, Request.isSummary]
  | err =>
      simp [V1.handleLogin, V1.handleRegister, V2.handleSubmit,
        V1.handleLoginFinish, V1.handleRegisterFinish, V2.handleSubmitFinish,
        V1.submitStart, V2.submitStart, V1.fetchReferralData,
        V2.fetchReferralData, getItem_setItem, Request.isSummary]

theorem jsOrElse_some (msg fallback : String) (h : msg ≠ "") :
    jsOrElse (some msg) fallback = msg := by
  simp [jsOrElse, h]

theorem jsOrElse_none (fallback : String) : jsOrElse none fallback = fallback := rfl

/-- **C2.** For every registration or login submission that fails (the
request rejects), the session state is unchanged — the user in view
state, the persisted local storage and the referral data are exactly as
before and no referral fetch is issued — and the error slot holds the
server message verbatim when a (non-empty) one is present, otherwise the
handler's generic fallback string; for all three handlers. -/
theorem claim2_failure_frame_and_error
    (m : Option String) (f : FetchOutcome) (s : V1.AppState) (t : V2.AppState) :
    ((V1.handleLogin (.err m) f s).1.user = s.user ∧
     (V1.handleLogin (.err m) f s).1.localStorage = s.localStorage ∧
     (V1.handleLogin (.err m) f s).1.referralData = s.referralData ∧
     countSummary (V1.handleLogin (.err m) f s).2 = 0 ∧
     (∀ msg, m = some msg → msg ≠ "" →
       (V1.handleLogin (.err m) f s).1.error = msg) ∧
     (m = none → (V1.handleLogin (.err m) f s).1.error = "Login failed")) ∧
    ((V1.handleRegister (.err m) f s).1.user = s.user ∧
     (V1.handleRegister (.err m) f s).1.localStorage = s.localStorage ∧
     (V1.handleRegister (.err m) f s).1.referralData = s.referralData ∧
     countSummary (V1.handleRegister (.err m) f s).2 = 0 ∧
     (∀ msg, m = some msg → msg ≠ "" →
       (V1.handleRegister (.err m) f s).1.error = msg) ∧
     (m = none → (V1.handleRegister (.err m) f s).1.error = "Registration failed")) ∧
    ((V2.handleSubmit (.err m) f t).1.user = t.user ∧
     (V2.handleSubmit (.err m) f t).1.localStorage = t.localStorage ∧
     (V2.handleSubmit (.err m) f t).1.referralData = t.referralData ∧
     countSummary (V2.handleSubmit (.err m) f t).2 = 0 ∧
     (∀ msg, m = some msg → msg ≠ "" →
       (V2.handleSubmit (.err m) f t).1.error = msg) ∧
     (m = none → (V2.handleSubmit (.err m) f t).1.error = "Failed to access dashboard")) := by
  refine ⟨⟨?_, ?_, ?_, ?_, ?_, ?_⟩, ⟨?_, ?_, ?_, ?_, ?_, ?_⟩,
    ⟨?_, ?_, ?_, ?_, ?_, ?_⟩⟩ <;>
  first
  | (intro msg hm hne
     subst hm
     simp [V1.handleLogin, V1.handleLoginFinish, V1.handleRegister,
       V1.handleRegisterFinish, V2.handleSubmit, V2.handleSubmitFinish,
       V1.submitStart, V2.submitStart, jsOrElse_some, hne])
  | (intro hm
     subst hm
     simp [V1.handleLogin, V1.handleLoginFinish, V1.handleRegister,
       V1.handleRegisterFinish, V2.handleSubmit, V2.handleSubmitFinish,
       V1.submitStart, V2.submitStart, jsOrElse_none])
  | simp [V1.handleLogin, V1.handleLoginFinish, V1.handleRegister,
      V1.handleRegisterFinish, V2.handleSubmit, V2.handleSubmitFinish,
      V1.submitStart, V2.submitStart, countSummary, Request.isSummary]

theorem claim2_witness :
    (V1.handleLogin (.err (some "Invalid email")) .err
      (V1.initialState [])).1.error = "Invalid email" :=
  ((claim2_failure_frame_and_error (some "Invalid email") .err
      (V1.initialState []) (V2.initialState [])).1.2.2.2.2.1)
    "Invalid email" rfl (by decide)

/-- **C3.** On initial mount, when the persisted `adminUser` blob is
present but `JSON.parse` throws on it, the blob is removed from local
storage, the error slot stays empty, no user is set, the view stays on
the login form, and no request (in particular no referral fetch) is
issued; in both variants. -/
theorem claim3_malformed_blob_discarded
    (ls : LocalStorage) (raw : String) (f : FetchOutcome)
    (h : ls.getItem "adminUser" = some (.malformed raw)) :
    ((V1.sessionBootstrap f (V1.initialState ls)).1.localStorage.getItem "adminUser"
       = none ∧
     (V1.sessionBootstrap f (V1.initialState ls)).1.error = "" ∧
     (V1.sessionBootstrap f (V1.initialState ls)).1.user = none ∧
     (V1.sessionBootstrap f (V1.initialState ls)).1.showLogin = true ∧
     (V1.sessionBootstrap f (V1.initialState ls)).2 = []) ∧
    ((V2.sessionBootstrap f (V2.initialState ls)).1.localStorage.getItem "adminUser"
       = none ∧
     (V2.sessionBootstrap f (V2.initialState ls)).1.error = "" ∧
     (V2.sessionBootstrap f (V2.initialState ls)).1.user = none ∧
     (V2.sessionBootstrap f (V2.initialState ls)).2 = []) := by
  simp [V1.sessionBootstrap, V2.sessionBootstrap, V1.initialState, V2.initialState,
    h, getItem_removeItem]

theorem claim3_witness :
    (V1.sessionBootstrap .err
      (V1.initialState [("adminUser", .malformed "not-json")])).1.localStorage.getItem
        "adminUser" = none :=
  (claim3_malformed_blob_discarded [("adminUser", .malformed "not-json")] "not-json" .err
    (by decide)).1.1

/-- **C4.** For every state, logout clears the user, the referral data
and the form fields, returns the view to its unauthenticated mode, and
removes the persisted `adminUser` entry; in both variants. -/
theorem claim4_logout_clears_everything (s : V1.AppState) (t : V2.AppState) :
    ((V1.handleLogout s).user = none ∧
     (V1.handleLogout s).referralData = none ∧
     (V1.handleLogout s).showLogin = true ∧
     (V1.handleLogout s).showRegister = false ∧
     (V1.handleLogout s).formData = { email := "", fullName := "" } ∧
     (V1.handleLogout s).localStorage.getItem "adminUser" = none) ∧
    ((V2.handleLogout t).user = none ∧
     (V2.handleLogout t).referralData = none ∧
     (V2.handleLogout t).formData = { email := "", fullName := "" } ∧
     (V2.handleLogout t).localStorage.getItem "adminUser" = none) := by
  simp [V1.handleLogout, V2.handleLogout, getItem_removeItem]

/-- **C5.** With a signed-in user, a code-generation action whose
response has `success = true` issues exactly one referral-summary fetch
(for that user's id), and when that fetch succeeds the summary state is
replaced wholesale by the fetch's response; when the generation response
does not have `success = true` (non-success response or rejection), no
summary fetch is issued; in both variants. -/
theorem claim5_generate_refetch
    (u : User) (m : Option String) (f : FetchOutcome) (d : ReferralData)
    (s : V1.AppState) (t : V2.AppState)
    (hs : s.user = some u) (ht : t.user = some u) :
    ((V1.generateReferralLink (.ok true) f s).2.filter (fun q => q.isSummary)
       = [Request.summaryReq ("Bearer " ++ u.id)] ∧
     (f = .ok true d →
       (V1.generateReferralLink (.ok true) f s).1.referralData = some d) ∧
     countSummary (V1.generateReferralLink (.ok false) f s).2 = 0 ∧
     countSummary (V1.generateReferralLink (.err m) f s).2 = 0) ∧
    ((V2.generateReferralLink (.ok true) f t).2.filter (fun q => q.isSummary)
       = [Request.summaryReq ("Bearer " ++ u.id)] ∧
     (f = .ok true d →
       (V2.generateReferralLink (.ok true) f t).1.referralData = some d) ∧
     countSummary (V2.generateReferralLink (.ok false) f t).2 = 0 ∧
     countSummary (V2.generateReferralLink (.err m) f t).2 = 0) := by
  refine ⟨⟨?_, ?_, ?_, ?_⟩, ⟨?_, ?_, ?_, ?_⟩⟩ <;>
  first
  | (intro hf
     subst hf
     simp [V1.generateReferralLink, V2.generateReferralLink, hs, ht,
       V1.fetchReferralData, V2.fetchReferralData])
  | (cases f <;>
     first
     | (rename_i b _; cases b <;>
        simp [V1.generateReferralLink, V2.generateReferralLink, hs, ht,
          V1.fetchReferralData, V2.fetchReferralData, countSummary,
          Request.isSummary])
     | simp [V1.generateReferralLink, V2.generateReferralLink, hs, ht,
         V1.fetchReferralData, V2.fetchReferralData, countSummary,
         Request.isSummary])

theorem claim5_witness :
    (V1.generateReferralLink (.ok true) (.ok true sampleData)
      sampleV1State).2.filter (fun q => q.isSummary)
      = [Request.summaryReq ("Bearer " ++ sampleUser.id)] :=
  (claim5_generate_refetch sampleUser none (.ok true sampleData) sampleData
    sampleV1State sampleV2State rfl rfl).1.1

/-! ## Trace lemmas: exactly which requests each handler issues -/

theorem fetchV1_trace (uid : String) (f : FetchOutcome) (s : V1.AppState) :
    (V1.fetchReferralData uid f s).2 = [Request.summaryReq ("Bearer " ++ uid)] := by
  cases f with
  | ok b d => cases b <;> rfl
  | err => rfl

theorem fetchV2_trace (uid : String) (f : FetchOutcome) (s : V2.AppState) :
    (V2.fetchReferralData uid f s).2 = [Request.summaryReq ("Bearer " ++ uid)] := by
  cases f with
  | ok b d => cases b <;> rfl
  | err => rfl

theorem generateV1_trace_ok_true (u : User) (f : FetchOutcome) (s : V1.AppState)
    (hs : s.user = some u) :
    (V1.generateReferralLink (.ok true) f s).2
      = [Request.codeReq ("Bearer " ++ u.id), Request.summaryReq ("Bearer " ++ u.id)] := by
  cases f with
  | ok b d => cases b <;> simp [V1.generateReferralLink, hs, V1.fetchReferralData]
  | err => simp [V1.generateReferralLink, hs, V1.fetchReferralData]

theorem generateV1_trace_not_ok (u : User) (f : FetchOutcome) (s : V1.AppState)
    (m : Option String) (hs : s.user = some u) :
    (V1.generateReferralLink (.ok false) f s).2 = [Request.codeReq ("Bearer " ++ u.id)] ∧
    (V1.generateReferralLink (.err m) f s).2 = [Request.codeReq ("Bearer " ++ u.id)] := by
  constructor <;> simp [V1.generateReferralLink, hs]

theorem generateV2_trace_ok_true (u : User) (f : FetchOutcome) (t : V2.AppState)
    (ht : t.user = some u) :
    (V2.generateReferralLink (.ok true) f t).2
      = [Request.codeReq ("Bearer " ++ u.id), Request.summaryReq ("Bearer " ++ u.id)] := by
  cases f with
  | ok b d => cases b <;> simp [V2.generateReferralLink, ht, V2.fetchReferralData]
  | err => simp [V2.generateReferralLink, ht, V2.fetchReferralData]

theorem generateV2_trace_not_ok (u : User) (f : FetchOutcome) (t : V2.AppState)
    (m : Option String) (ht : t.user = some u) :
    (V2.generateReferralLink (.ok false) f t).2 = [Request.codeReq ("Bearer " ++ u.id)] ∧
    (V2.generateReferralLink (.err m) f t).2 = [Request.codeReq ("Bearer " ++ u.id)] := by
  constructor <;> simp [V2.generateReferralLink, ht]

theorem loginV1_trace (u : User) (f : FetchOutcome) (s : V1.AppState) :
    (V1.handleLogin (.ok true u) f s).2
      = [Request.loginReq s.formData.email, Request.summaryReq ("Bearer " ++ u.id)] := by
  cases f with
  | ok b d =>
      cases b <;>
        simp [V1.handleLogin, V1.handleLoginFinish, V1.submitStart,
          V1.fetchReferralData]
  | err =>
      simp [V1.handleLogin, V1.handleLoginFinish, V1.submitStart,
        V1.fetchReferralData]

theorem registerV1_trace (u : User) (f : FetchOutcome) (s : V1.AppState) :
    (V1.handleRegister (.ok true u) f s).2
      = [Request.registerReq s.formData.email s.formData.fullName,
         Request.summaryReq ("Bearer " ++ u.id)] := by
  cases f with
  | ok b d =>
      cases b <;>
        simp [V1.handleRegister, V1.handleRegisterFinish, V1.submitStart,
          V1.fetchReferralData]
  | err =>
      simp [V1.handleRegister, V1.handleRegisterFinish, V1.submitStart,
        V1.fetchReferralData]

theorem submitV2_trace (u : User) (f : FetchOutcome) (t : V2.AppState) :
    (V2.handleSubmit (.ok true u) f t).2
      = [Request.registerReq t.formData.email t.formData.fullName,
         Request.summaryReq ("Bearer " ++ u.id)] := by
  cases f with
  | ok b d =>
      cases b <;>
        simp [V2.handleSubmit, V2.handleSubmitFinish, V2.submitStart,
          V2.fetchReferralData]
  | err =>
      simp [V2.handleSubmit, V2.handleSubmitFinish, V2.submitStart,
        V2.fetchReferralData]

theorem bootstrapV1_trace (u : User) (f : FetchOutcome) (ls : LocalStorage)
    (hls : ls.getItem "adminUser" = some (.valid u)) :
    (V1.sessionBootstrap f (V1.initialState ls)).2
      = [Request.summaryReq ("Bearer " ++ u.id)] := by
  cases f with
  | ok b d =>
      cases b <;>
        simp [V1.sessionBootstrap, V1.initialState, hls, V1.fetchReferralData]
  | err =>
      simp [V1.sessionBootstrap, V1.initialState, hls, V1.fetchReferralData]

theorem bootstrapV2_trace (u : User) (f : FetchOutcome) (ls : LocalStorage)
    (hls : ls.getItem "adminUser" = some (.valid u)) :
    (V2.sessionBootstrap f (V2.initialState ls)).2
      = [Request.summaryReq ("Bearer " ++ u.id)] := by
  cases f with
  | ok b d =>
      cases b <;>
        simp [V2.sessionBootstrap, V2.initialState, hls, V2.fetchReferralData]
  | err =>
      simp [V2.sessionBootstrap, V2.initialState, hls, V2.fetchReferralData]

theorem generateV1_auth (u : User) (g : GenOutcome) (f : FetchOutcome)
    (s : V1.AppState) (hs : s.user = some u) :
    ∀ q ∈ (V1.generateReferralLink g f s).2,
      q.bearerAuth = some ("Bearer " ++ u.id) := by
  intro q hq
  cases g with
  | ok b =>
      cases b with
      | true =>
          rw [generateV1_trace_ok_true u f s hs] at hq
          simp at hq
          rcases hq with h | h <;> subst h <;> rfl
      | false =>
          rw [(generateV1_trace_not_ok u f s none hs).1] at hq
          simp at hq
          subst hq
          rfl
  | err m =>
      rw [(generateV1_trace_not_ok u f s m hs).2] at hq
      simp at hq
      subst hq
      rfl

theorem generateV2_auth (u : User) (g : GenOutcome) (f : FetchOutcome)
    (t : V2.AppState) (ht : t.user = some u) :
    ∀ q ∈ (V2.generateReferralLink g f t).2,
      q.bearerAuth = some ("Bearer " ++ u.id) := by
  intro q hq
  cases g with
  | ok b =>
      cases b with
      | true =>
          rw [generateV2_trace_ok_true u f t ht] at hq
          simp at hq
          rcases hq with h | h <;> subst h <;> rfl
      | false =>
          rw [(generateV2_trace_not_ok u f t none ht).1] at hq
          simp at hq
          subst hq
          rfl
  | err m =>
      rw [(generateV2_trace_not_ok u f t m ht).2] at hq
      simp at hq
      subst hq
      rfl

/-- **C6.** Every referral-summary fetch and every code-generation
request carries an `Authorization` header equal to `"Bearer "` followed
by the raw id of the session user on whose behalf it is made: directly
in `fetchReferralData`, in code generation from a signed-in state, in a
successful login/registration (for the returned user), and in the mount
bootstrap of a persisted session; any request carrying an auth header in
those traces carries exactly that value. -/
theorem claim6_bearer_auth
    (u : User) (uid : String) (f : FetchOutcome) (g : GenOutcome)
    (ls : LocalStorage) (s : V1.AppState) (t : V2.AppState)
    (hs : s.user = some u) (ht : t.user = some u)
    (hls : ls.getItem "adminUser" = some (.valid u)) :
    (∀ q ∈ (V1.fetchReferralData uid f s).2,
      q.bearerAuth = some ("Bearer " ++ uid)) ∧
    (∀ q ∈ (V1.generateReferralLink g f s).2,
      q.bearerAuth = some ("Bearer " ++ u.id)) ∧
    (∀ q ∈ (V1.handleLogin (.ok true u) f s).2, ∀ x,
      q.bearerAuth = some x → x = "Bearer " ++ u.id) ∧
    (∀ q ∈ (V1.handleRegister (.ok true u) f s).2, ∀ x,
      q.bearerAuth = some x → x = "Bearer " ++ u.id) ∧
    (∀ q ∈ (V1.sessionBootstrap f (V1.initialState ls)).2,
      q.bearerAuth = some ("Bearer " ++ u.id)) ∧
    (∀ q ∈ (V2.fetchReferralData uid f t).2,
      q.bearerAuth = some ("Bearer " ++ uid)) ∧
    (∀ q ∈ (V2.generateReferralLink g f t).2,
      q.bearerAuth = some ("Bearer " ++ u.id)) ∧
    (∀ q ∈ (V2.handleSubmit (.ok true u) f t).2, ∀ x,
      q.bearerAuth = some x → x = "Bearer " ++ u.id) ∧
    (∀ q ∈ (V2.sessionBootstrap f (V2.initialState ls)).2,
      q.bearerAuth = some ("Bearer " ++ u.id)) := by
  refine ⟨?_, generateV1_auth u g f s hs, ?_, ?_, ?_, ?_,
    generateV2_auth u g f t ht, ?_, ?_⟩
  · intro q hq
    rw [fetchV1_trace] at hq
    simp at hq
    subst hq
    rfl
  · intro q hq x hx
    rw [loginV1_trace] at hq
    simp at hq
    rcases hq with h | h <;> subst h <;> simp [Request.bearerAuth] at hx
    exact hx.symm
  · intro q hq x hx
    rw [registerV1_trace] at hq
    simp at hq
    rcases hq with h | h <;> subst h <;> simp [Request.bearerAuth] at hx
    exact hx.symm
  · intro q hq
    rw [bootstrapV1_trace u f ls hls] at hq
    simp at hq
    subst hq
    rfl
  · intro q hq
    rw [fetchV2_trace] at hq
    simp at hq
    subst hq
    rfl
  · intro q hq x hx
    rw [submitV2_trace] at hq
    simp at hq
    rcases hq with h | h <;> subst h <;> simp [Request.bearerAuth] at hx
    exact hx.symm
  · intro q hq
    rw [bootstrapV2_trace u f ls hls] at hq
    simp at hq
    subst hq
    rfl

theorem claim6_witness :
    (Request.codeReq ("Bearer " ++ sampleUser.id)).bearerAuth
      = some ("Bearer " ++ sampleUser.id) :=
  (claim6_bearer_auth sampleUser sampleUser.id .err (.ok true)
      [("adminUser", .valid sampleUser)] sampleV1State sampleV2State
      rfl rfl (by decide)).2.1
    (Request.codeReq ("Bearer " ++ sampleUser.id)) (by decide)

/-- **C7 counterexample.** The claim as stated is false: during code
generation from a signed-in state, when the request fails and the server
supplies the message `"Daily quota exceeded"`, the string shown is the
hard-coded `"Failed to generate referral link"`, not the server's
message. -/
theorem claim7_counterexample :
    (V1.generateReferralLink (.err (some "Daily quota exceeded")) .err
      sampleV1State).1.error = "Failed to generate referral link" ∧
    "Failed to generate referral link" ≠ "Daily quota exceeded" := by
  constructor
  · rfl
  · decide

/-- **C7 (amended).** For credential submissions (login, registration
and the `V2` submit) the surfaced string is the server's message
verbatim when a non-empty one is present, otherwise the handler's
fallback; code generation, in contrast, always surfaces the hard-coded
string `"Failed to generate referral link"` on a caught failure,
regardless of any server-supplied message. -/
theorem claim7_amended_error_strings
    (m : Option String) (f : FetchOutcome) (u : User)
    (s : V1.AppState) (t : V2.AppState)
    (hs : s.user = some u) (ht : t.user = some u) :
    (∀ msg, m = some msg → msg ≠ "" →
      (V1.handleLogin (.err m) f s).1.error = msg ∧
      (V1.handleRegister (.err m) f s).1.error = msg ∧
      (V2.handleSubmit (.err m) f t).1.error = msg) ∧
    (m = none →
      (V1.handleLogin (.err m) f s).1.error = "Login failed" ∧
      (V1.handleRegister (.err m) f s).1.error = "Registration failed" ∧
      (V2.handleSubmit (.err m) f t).1.error = "Failed to access dashboard") ∧
    (V1.generateReferralLink (.err m) f s).1.error
      = "Failed to generate referral link" ∧
    (V2.generateReferralLink (.err m) f t).1.error
      = "Failed to generate referral link" := by
  refine ⟨?_, ?_, ?_, ?_⟩
  · intro msg hm hne
    subst hm
    refine ⟨?_, ?_, ?_⟩ <;>
      simp [V1.handleLogin, V1.handleLoginFinish, V1.handleRegister,
        V1.handleRegisterFinish, V2.handleSubmit, V2.handleSubmitFinish,
        V1.submitStart, V2.submitStart, jsOrElse_some, hne]
  · intro hm
    subst hm
    refine ⟨?_, ?_, ?_⟩ <;>
      simp [V1.handleLogin, V1.handleLoginFinish, V1.handleRegister,
        V1.handleRegisterFinish, V2.handleSubmit, V2.handleSubmitFinish,
        V1.submitStart, V2.submitStart, jsOrElse_none]
  · simp [V1.generateReferralLink, hs]
  · simp [V2.generateReferralLink, ht]

theorem claim7_witness :
    (V1.generateReferralLink (.err (some "x")) .err sampleV1State).1.error
      = "Failed to generate referral link" :=
  (claim7_amended_error_strings (some "x") .err sampleUser
    sampleV1State sampleV2State rfl rfl).2.2.1

theorem loading_cleared_loginV1 (a : AuthOutcome) (f : FetchOutcome)
    (s : V1.AppState) : (V1.handleLogin a f s).1.loading = false := by
  cases a with
  | ok b u =>
      cases b with
      | true =>
          cases f with
          | ok fb d => cases fb <;> rfl
          | err => rfl
      | false => rfl
  | err m => rfl

theorem loading_cleared_registerV1 (a : AuthOutcome) (f : FetchOutcome)
    (s : V1.AppState) : (V1.handleRegister a f s).1.loading = false := by
  cases a with
  | ok b u =>
      cases b with
      | true =>
          cases f with
          | ok fb d => cases fb <;> rfl
          | err => rfl
      | false => rfl
  | err m => rfl

theorem loading_cleared_submitV2 (a : AuthOutcome) (f : FetchOutcome)
    (t : V2.AppState) : (V2.handleSubmit a f t).1.loading = false := by
  cases a with
  | ok b u =>
      cases b with
      | true =>
          cases f with
          | ok fb d => cases fb <;> rfl
          | err => rfl
      | false => rfl
  | err m => rfl

theorem loading_cleared_generateV1 (u : User) (g : GenOutcome)
    (f : FetchOutcome) (s : V1.AppState) (hs : s.user = some u) :
    (V1.generateReferralLink g f s).1.loading = false := by
  cases g with
  | ok b =>
      cases b with
      | true =>
          cases f with
          | ok fb d =>
              cases fb <;>
                simp [V1.generateReferralLink, hs, V1.fetchReferralData]
          | err => simp [V1.generateReferralLink, hs, V1.fetchReferralData]
      | false => simp [V1.generateReferralLink, hs]
  | err m => simp [V1.generateReferralLink, hs]

theorem loading_cleared_generateV2 (u : User) (g : GenOutcome)
    (f : FetchOutcome) (t : V2.AppState) (ht : t.user = some u) :
    (V2.generateReferralLink g f t).1.loading = false := by
  cases g with
  | ok b =>
      cases b with
      | true =>
          cases f with
          | ok fb d =>
              cases fb <;>
                simp [V2.generateReferralLink, ht, V2.fetchReferralData]
          | err => simp [V2.generateReferralLink, ht, V2.fetchReferralData]
      | false => simp [V2.generateReferralLink, ht]
  | err m => simp [V2.generateReferralLink, ht]

/-- **C8.** Between the synchronous start of a credential submission or
code generation and the settling of the request, the loading flag is
true and the corresponding button (whose `disabled` prop is the loading
flag) is disabled; and after any outcome — resolved with or without
`success`, or rejected — the handler's `finally` block leaves the
loading flag false. -/
theorem claim8_loading_flag
    (a : AuthOutcome) (g : GenOutcome) (f : FetchOutcome) (u : User)
    (s : V1.AppState) (t : V2.AppState)
    (hs : s.user = some u) (ht : t.user = some u) :
    V1.submitDisabled (V1.submitStart s) = true ∧
    (V1.submitStart s).loading = true ∧
    (V1.handleLogin a f s).1.loading = false ∧
    (V1.handleRegister a f s).1.loading = false ∧
    V1.generateDisabled (V1.generateStart s) = true ∧
    (V1.generateStart s).loading = true ∧
    (V1.generateReferralLink g f s).1.loading = false ∧
    V2.submitDisabled (V2.submitStart t) = true ∧
    (V2.submitStart t).loading = true ∧
    (V2.handleSubmit a f t).1.loading = false ∧
    V2.generateDisabled (V2.generateStart t) = true ∧
    (V2.generateStart t).loading = true ∧
    (V2.generateReferralLink g f t).1.loading = false := by
  refine ⟨rfl, rfl, loading_cleared_loginV1 a f s,
    loading_cleared_registerV1 a f s, ?_, ?_,
    loading_cleared_generateV1 u g f s hs, rfl, rfl,
    loading_cleared_submitV2 a f t, ?_, ?_,
    loading_cleared_generateV2 u g f t ht⟩ <;>
    simp [V1.generateStart, V2.generateStart, V1.generateDisabled,
      V2.generateDisabled, hs, ht]

theorem claim8_witness :
    (V1.submitStart sampleV1State).loading = true ∧
    (V1.generateReferralLink (.ok true) .err sampleV1State).1.loading = false := by
  have h := claim8_loading_flag (.ok true sampleUser) (.ok true) .err
    sampleUser sampleV1State sampleV2State rfl rfl
  exact ⟨h.2.1, h.2.2.2.2.2.2.1⟩

/-- **C9.** A failure of the referral-summary fetch (rejection) leaves
the entire component state unchanged — in particular the error string,
the user and the previously held referral data; a response without
`success` also changes nothing; the referral-data field is replaced
exactly when the response has `success = true`; in both variants. -/
theorem claim9_fetch_failure_frame
    (uid : String) (d : ReferralData) (s : V1.AppState) (t : V2.AppState) :
    ((V1.fetchReferralData uid .err s).1 = s ∧
     (V1.fetchReferralData uid (.ok false d) s).1 = s ∧
     (V1.fetchReferralData uid (.ok true d) s).1
       = { s with referralData := some d }) ∧
    ((V2.fetchReferralData uid .err t).1 = t ∧
     (V2.fetchReferralData uid (.ok false d) t).1 = t ∧
     (V2.fetchReferralData uid (.ok true d) t).1
       = { t with referralData := some d }) :=
  ⟨⟨rfl, rfl, rfl⟩, ⟨rfl, rfl, rfl⟩⟩

/-- **C10 counterexample.** The claim as stated is false: from a state
whose error slot holds `"Previous error"`, a login request that resolves
with `success = false` changes the error slot (to the empty string)
while the loading flag is the same before and after — an observable
change other than the loading flag. -/
theorem claim10_counterexample :
    (V1.handleLogin (.ok false sampleUser) .err erroredV1State).1.error
      ≠ erroredV1State.error ∧
    (V1.handleLogin (.ok false sampleUser) .err erroredV1State).1.loading
      = erroredV1State.loading := by
  constructor
  · decide
  · rfl

/-- **C10 (amended).** When a registration or login request completes
without throwing but its response has `success = false`, the handler
leaves the loading flag cleared and resets the error slot to the empty
string, and changes nothing else: no user is stored in view state or
local storage, no referral fetch is triggered, and no error message is
displayed. -/
theorem claim10_amended_success_false
    (u : User) (f : FetchOutcome) (s : V1.AppState) (t : V2.AppState) :
    V1.handleLogin (.ok false u) f s
      = ({ s with loading := false, error := "" },
         [Request.loginReq s.formData.email]) ∧
    V1.handleRegister (.ok false u) f s
      = ({ s with loading := false, error := "" },
         [Request.registerReq s.formData.email s.formData.fullName]) ∧
    V2.handleSubmit (.ok false u) f t
      = ({ t with loading := false, error := "" },
         [Request.registerReq t.formData.email t.formData.fullName]) ∧
    countSummary (V1.handleLogin (.ok false u) f s).2 = 0 := by
  refine ⟨rfl, rfl, rfl, ?_⟩
  simp [V1.handleLogin, V1.handleLoginFinish, V1.submitStart, countSummary,
    Request.isSummary]
